import Mathlib

/-!
Verification of the configuration core and driver helpers of the
pika-cli-client repository (src/pika_cli_client/config.py, publisher.py,
consumer.py), shallowly embedded in Lean 4.

Python values that can appear as configuration settings are modelled by
the inductive type Value; Python dictionaries are modelled as association
lists with Python dict semantics (lookup of the unique entry, in-place
replacement on overwrite, insertion order preserved).  Python exceptions
(KeyError, ValueError, TypeError, yaml parse errors, SystemExit) are
modelled with the Except monad.
-/

set_option maxRecDepth 100000

/-- A Python value as it can occur in the configuration layer:
None, a string, an integer, a boolean or a list of strings. -/
inductive Value where
  | vnone
  | vstr (s : String)
  | vint (n : Int)
  | vbool (b : Bool)
  | vlist (xs : List String)
deriving DecidableEq, Repr

/-- The Python exception classes raised by the embedded code. -/
inductive PyErr where
  | keyError (msg : String)
  | valueError (msg : String)
  | typeError (msg : String)
  | yamlError (msg : String)
deriving DecidableEq, Repr

/-- Python dict lookup d.get(k) / d[k]: first (unique) matching entry. -/
def dictGet {κ α : Type} [DecidableEq κ] : List (κ × α) → κ → Option α
  | [], _ => Option.none
  | (k', v') :: t, k => if k' = k then some v' else dictGet t k

/-- Python dict write d[k] = v: replace the entry in place if the key is
present, append at the end otherwise (insertion-order semantics). -/
def dictSet {κ α : Type} [DecidableEq κ] : List (κ × α) → κ → α → List (κ × α)
  | [], k, v => [(k, v)]
  | (k', v') :: t, k, v => if k' = k then (k, v) :: t else (k', v') :: dictSet t k v

/-- Python dict deletion del d[k]: drop the (unique) entry for k. -/
def dictDel {κ α : Type} [DecidableEq κ] : List (κ × α) → κ → List (κ × α)
  | [], _ => []
  | (k', v') :: t, k => if k' = k then t else (k', v') :: dictDel t k

/-- Stand-in for sorted(SSL_PROTOCOLS.keys())[-1] of config.py: the
highest available TLS protocol identifier derived from the Python ssl
module at import time.  Its concrete value is environment dependent and
irrelevant to every claim; a representative identifier is used. -/
def sslVersionDefault : String := "tlsv1.2"

/-- DEFAULT_CONFIG of config.py, in its source order. -/
def DEFAULT_CONFIG : List (String × Value) :=
  [("auth.password", Value.vnone),
   ("auth.username", Value.vnone),
   ("conn.host", Value.vstr "localhost"),
   ("conn.port", Value.vint 5672),
   ("conn.vhost", Value.vstr "/"),
   ("ssl.ciphers", Value.vlist []),
   ("ssl.enable", Value.vbool true),
   ("ssl.version", Value.vstr sslVersionDefault),
   ("logging.level", Value.vstr "INFO")]

/-- sorted(self._defaults): the nine schema keys in Python string order,
as iterated by Config.load_dict, Config.dump_dict and Config.__iter__. -/
def sortedKeys : List String :=
  ["auth.password", "auth.username", "conn.host", "conn.port", "conn.vhost",
   "logging.level", "ssl.ciphers", "ssl.enable", "ssl.version"]

/-- The Config settings store of config.py: _defaults is the module-level
DEFAULT_CONFIG, so only the explicit overrides _settings are state. -/
structure Config where
  settings : List (String × Value)
deriving DecidableEq, Repr

/-- Config() constructed with no arguments (update of an empty dict). -/
def Config.new : Config := ⟨[]⟩

/-- Config.__getitem__: KeyError for a key outside the schema, else the
override if set, falling back to the schema default. -/
def Config.getItem (c : Config) (item : String) : Except PyErr Value :=
  match dictGet DEFAULT_CONFIG item with
  | Option.none => Except.error (PyErr.keyError ("No setting " ++ item))
  | some d => Except.ok ((dictGet c.settings item).getD d)

/-- Config.__setitem__: KeyError for a key outside the schema, else store
the raw value (no type coercion of any kind). -/
def Config.setItem (c : Config) (item : String) (v : Value) : Except PyErr Config :=
  match dictGet DEFAULT_CONFIG item with
  | Option.none => Except.error (PyErr.keyError ("No setting " ++ item))
  | some _ => Except.ok ⟨dictSet c.settings item v⟩

/-- Config.__delitem__: KeyError for a key outside the schema, KeyError
"not set" for a schema key with no explicit override, else remove the
override (the default remains visible through getItem). -/
def Config.delItem (c : Config) (item : String) : Except PyErr Config :=
  match dictGet DEFAULT_CONFIG item with
  | Option.none => Except.error (PyErr.keyError ("No setting " ++ item))
  | some _ =>
    match dictGet c.settings item with
    | Option.none => Except.error (PyErr.keyError (item ++ " not set"))
    | some _ => Except.ok ⟨dictDel c.settings item⟩

/-- Config.__len__: len(self._defaults), independent of the overrides. -/
def Config.length (_ : Config) : Nat := DEFAULT_CONFIG.length

/-- str.split of a string on the dot character, modelling
key.split(".") in Config.load_dict / Config.dump_dict (written as a
structurally recursive walk so that it evaluates by definitional
reduction). -/
def splitDotAux : List Char → List Char → List String
  | [], cur => [String.mk cur.reverse]
  | c :: t, cur =>
    if c = '.' then String.mk cur.reverse :: splitDotAux t []
    else splitDotAux t (c :: cur)

/-- key.split(".") for a dotted settings key. -/
def splitDot (s : String) : List String := splitDotAux s.toList []

/-- A nested-mapping configuration source as handed to Config.load_dict:
a root mapping from section names to mappings from option names to
values.  Every schema key has exactly two dotted parts, so the
parts[:-1] walk of load_dict visits exactly one intermediate mapping. -/
abbrev Source := List (String × List (String × Value))

/-- The walk of Config.load_dict for one schema key:
t = dict_value.get(section, dict()) followed by the membership test and
read of parts[-1] in t. -/
def srcLookup (src : Source) (key : String) : Option Value :=
  match splitDot key with
  | [sec, opt] => dictGet ((dictGet src sec).getD []) opt
  | _ => Option.none

/-- One iteration of the Config.load_dict loop body for a given key:
if the source defines the key, write it through self.__setitem__
(which cannot fail for a schema key), otherwise leave the store. -/
def loadStep (c : Config) (key : String) (ov : Option Value) : Config :=
  match ov with
  | some v =>
    match c.setItem key v with
    | Except.ok c2 => c2
    | Except.error _ => c
  | Option.none => c

/-- Config.load_dict: for every schema key in sorted order, import the
corresponding leaf of the nested mapping when it exists. -/
def Config.loadDict (c : Config) (src : Source) : Config :=
  sortedKeys.foldl (fun acc key => loadStep acc key (srcLookup src key)) c

/-- The inner write of Config.dump_dict for one key: setdefault of the
section mapping followed by the leaf assignment. -/
def dumpStep (c : Config) (dump : Source) (key : String) : Source :=
  match splitDot key with
  | [sec, opt] =>
    let inner := (dictGet dump sec).getD []
    let v := match c.getItem key with
      | Except.ok v => v
      | Except.error _ => Value.vnone
    dictSet dump sec (dictSet inner opt v)
  | _ => dump

/-- Config.dump_dict: build the nested (ordered) mapping holding the
store's value for every schema key, in sorted key order. -/
def Config.dumpDict (c : Config) : Source :=
  sortedKeys.foldl (fun dump key => dumpStep c dump key) []

/-- The configuration-file reading loop of get_config, starting from a
given store: the sources are applied in order through load_dict. -/
def resolve (srcs : List Source) : Config :=
  srcs.foldl Config.loadDict Config.new

/-!  File sources: read_config and get_config of config.py.  -/

/-- The possible states of one configuration-file source as seen by
read_config: the file may be missing, may fail to parse as YAML, may
parse to a non-mapping root, or may parse to a root mapping. -/
inductive FileSource where
  | missing
  | invalid (msg : String)
  | nonMapping
  | mapping (m : Source)
deriving DecidableEq, Repr

/-- read_config of config.py.  A missing file and a root that is not a
mapping both yield the empty dict; a file that fails to YAML-parse is
NOT caught: yaml.load raises and the error propagates to the caller. -/
def read_config : FileSource → Except PyErr Source
  | FileSource.missing => Except.ok []
  | FileSource.invalid msg => Except.error (PyErr.yamlError msg)
  | FileSource.nonMapping => Except.ok []
  | FileSource.mapping m => Except.ok m

/-- The loop of get_config starting from an accumulated store: each
path that exists is read with read_config and merged with load_dict
(a missing path is skipped by the os.path.isfile guard, equivalently
merged as the empty dict). -/
def get_config_from (c : Config) : List FileSource → Except PyErr Config
  | [] => Except.ok c
  | s :: rest =>
    match read_config s with
    | Except.error e => Except.error e
    | Except.ok src => get_config_from (c.loadDict src) rest

/-- get_config of config.py over an ordered list of file sources
(system file, user file, optional custom file). -/
def get_config (srcs : List FileSource) : Except PyErr Config :=
  get_config_from Config.new srcs

/-!  Credential resolution: get_creds of config.py.  -/

/-- The relevant fields of the argparse namespace for get_creds. -/
structure Args where
  username : Option String
  password : Option String
  password_file : Option String
deriving DecidableEq, Repr

/-- Python truthiness of an optional string (None and the empty string
are falsy). -/
def truthy : Option String → Bool
  | Option.none => false
  | some s => s ≠ ""

/-- Python str.strip(): drop leading and trailing whitespace. -/
def isPySpace (c : Char) : Bool :=
  c = ' ' ∨ c = '\t' ∨ c = '\n' ∨ c = '\r' ∨ c = '\x0b' ∨ c = '\x0c'

/-- str.strip(), written over the character list so that it evaluates
by definitional reduction. -/
def stripStr (s : String) : String :=
  String.mk (((s.toList.dropWhile isPySpace).reverse.dropWhile isPySpace).reverse)

/-- Outcome of opening and reading the password file: either its lines,
or an OS error message. -/
inductive FileRead where
  | ok (lines : List String)
  | err (msg : String)
deriving DecidableEq, Repr

/-- fp.readline(): the first line of the file, the empty string for an
empty file. -/
def readline (lines : List String) : String := lines.head?.getD ""

/-- The password-file block of get_creds: when args.password_file is
truthy, open it (failure raises SystemExit) and, when the first line
strips to a non-blank string, overwrite args.password with it. -/
def resolvePwFile (args : Args) (readFile : String → FileRead) : Except String Args :=
  if truthy args.password_file then
    match readFile (args.password_file.getD "") with
    | FileRead.err e => Except.error ("Unable to open password file: " ++ e)
    | FileRead.ok lines =>
      let passwd := readline lines
      Except.ok (if stripStr passwd ≠ "" then { args with password := some (stripStr passwd) } else args)
  else Except.ok args

/-- The interactive-prompt block of get_creds: when a username is set
but no password, read the password with getpass (no echo); failure
raises SystemExit. -/
def resolvePrompt (args : Args) (getpass : Except String String) : Except String Args :=
  if truthy args.username && !truthy args.password then
    match getpass with
    | Except.error e => Except.error ("Prompt terminated: " ++ e)
    | Except.ok pw => Except.ok { args with password := some pw }
  else Except.ok args

/-- The final credentials of get_creds: pika.PlainCredentials(username,
password) when at least one of them is truthy, None otherwise. -/
def finishCreds (args : Args) : Option (Option String × Option String) :=
  if truthy args.username || truthy args.password then some (args.username, args.password)
  else Option.none

/-- get_creds of config.py, parameterised over the file system
(readFile) and the interactive prompt (getpass); a SystemExit is
modelled as an error carrying its message. -/
def get_creds (args : Args) (readFile : String → FileRead)
    (getpass : Except String String) :
    Except String (Option (Option String × Option String)) :=
  match resolvePwFile args readFile with
  | Except.error e => Except.error e
  | Except.ok a1 =>
    match resolvePrompt a1 getpass with
    | Except.error e => Except.error e
    | Except.ok a2 => Except.ok (finishCreds a2)

/-!  IniConfig of config.py: the only place with type coercion.
IniConfig.__setitem__ runs value = type_(value) before storing, where
type_ is the declared Python type from the VALUES table.  (IniConfig is
never instantiated by the repository, and its __init__ would fail on
self.config = None; the coercion behaviour of its setter is modelled
here because claim C7 cites it.)  -/

/-- The declared Python types appearing in IniConfig.VALUES. -/
inductive PyType where
  | pstr
  | pint
  | pbool
deriving DecidableEq, Repr

/-- IniConfig.VALUES: (section, option) to (default, declared type). -/
def INI_VALUES : List ((String × String) × (Value × PyType)) :=
  [(("auth", "password"), (Value.vnone, PyType.pstr)),
   (("auth", "username"), (Value.vnone, PyType.pstr)),
   (("conn", "host"), (Value.vstr "localhost", PyType.pstr)),
   (("conn", "port"), (Value.vint 5672, PyType.pint)),
   (("conn", "vhost"), (Value.vstr "/", PyType.pstr)),
   (("ssl", "ciphers"), (Value.vstr "", PyType.pstr)),
   (("ssl", "enable"), (Value.vbool true, PyType.pbool)),
   (("ssl", "version"), (Value.vstr sslVersionDefault, PyType.pstr)),
   (("logging", "level"), (Value.vstr "INFO", PyType.pstr))]

/-- The apostrophe character, used by the Python repr of strings. -/
def squote : String := String.singleton (Char.ofNat 39)

/-- Python str(value) for the modelled values (total: str never fails). -/
def pyStr : Value → String
  | Value.vnone => "None"
  | Value.vstr s => s
  | Value.vint n => toString n
  | Value.vbool b => if b then "True" else "False"
  | Value.vlist xs =>
    "[" ++ String.intercalate ", " (xs.map (fun s => squote ++ s ++ squote)) ++ "]"

/-- The decimal digits of a string, as a number, if the string consists
of an optional sign followed by at least one digit (after stripping),
as accepted by Python int(str). -/
def parseIntChars : List Char → Option Nat
  | [] => Option.none
  | cs =>
    if cs.all Char.isDigit then
      some (cs.foldl (fun acc c => acc * 10 + (c.toNat - 48)) 0)
    else Option.none

/-- Python int(s) on a string: optional sign, then decimal digits
(surrounding whitespace allowed, leading zeros allowed). -/
def parseIntPy (s : String) : Option Int :=
  match (stripStr s).toList with
  | '-' :: rest => (parseIntChars rest).map (fun n => -(n : Int))
  | '+' :: rest => (parseIntChars rest).map (fun n => (n : Int))
  | cs => (parseIntChars cs).map (fun n => (n : Int))

/-- Python int(value): exact for int, 0/1 for bool, digit parse for str
(ValueError when the literal is invalid), TypeError otherwise. -/
def pyIntCoerce : Value → Except PyErr Int
  | Value.vint n => Except.ok n
  | Value.vbool b => Except.ok (if b then 1 else 0)
  | Value.vstr s =>
    match parseIntPy s with
    | some n => Except.ok n
    | Option.none =>
      Except.error (PyErr.valueError ("invalid literal for int() with base 10: " ++ s))
  | Value.vnone =>
    Except.error (PyErr.typeError "int() argument must be a string or a number, not NoneType")
  | Value.vlist _ =>
    Except.error (PyErr.typeError "int() argument must be a string or a number, not list")

/-- Python bool(value): truthiness, which never fails (so coercion to
bool silently accepts any value). -/
def pyBoolCoerce : Value → Bool
  | Value.vnone => false
  | Value.vbool b => b
  | Value.vint n => n ≠ 0
  | Value.vstr s => s ≠ ""
  | Value.vlist xs => xs ≠ []

/-- value = type_(value) of IniConfig.__setitem__. -/
def iniCoerce : PyType → Value → Except PyErr Value
  | PyType.pstr, v => Except.ok (Value.vstr (pyStr v))
  | PyType.pint, v => (pyIntCoerce v).map Value.vint
  | PyType.pbool, v => Except.ok (Value.vbool (pyBoolCoerce v))

/-- IniConfig.__setitem__: split the dotted key once, KeyError when the
key has no dot or is outside VALUES, else coerce the value to the
declared type; the result is the value that would be stored. -/
def iniSetItemValue (item : String) (v : Value) : Except PyErr Value :=
  match splitDot item with
  | sec :: opt0 :: rest =>
    let opt := String.intercalate "." (opt0 :: rest)
    match dictGet INI_VALUES (sec, opt) with
    | Option.none => Except.error (PyErr.keyError ("No setting " ++ item))
    | some (_, t) => iniCoerce t v
  | _ => Except.error (PyErr.keyError ("No setting " ++ item))

/-!  Publisher driver (publisher.py).  -/

/-- The AMQP method carried by a frame handed to confirm_callback. -/
inductive AmqpMethod where
  | selectOk
  | ack (deliveryTag : Nat)
  | nack (deliveryTag : Nat)
  | other
deriving DecidableEq, Repr

/-- confirm_callback of publisher.py: the process-exit code it requests
(sys.exit argument), none when it only prints.  Note that main never
registers this callback: the channel.confirm_delivery() call is
commented out in the source. -/
def confirm_callback : AmqpMethod → Option Nat
  | AmqpMethod.selectOk => Option.none
  | AmqpMethod.nack _ => some 1
  | AmqpMethod.ack _ => some 0
  | AmqpMethod.other => Option.none

/-- The tail of publisher.main after basic_publish returns: the logged
message and the process exit code.  main only logs on a falsy result and
returns normally, so the interpreter exits with status 0 either way. -/
def publisherFinish (result : Bool) : String × Nat :=
  if result then ("Published message", 0) else ("Unable to publish message", 0)

/-!  Consumer pretty printer (consumer.py).

json.loads / json.dumps are embedded as an executable JSON parser and
serializer.  JSON numbers follow the Python json module: a numeric
literal without fraction or exponent becomes an arbitrary-precision
integer, any other numeric literal becomes an IEEE-754 binary64 float
(modelled exactly, with round-to-nearest-even decimal conversion,
overflow to infinity and underflow through the subnormals), and the
NaN / Infinity / -Infinity extensions that json.loads accepts by
default are parsed to the corresponding float values.  json.dumps
renders a finite float with repr's shortest round-tripping decimal
form.  Parsed text is kept as a list of Unicode code points, so the
lone-surrogate escapes Python's json accepts are representable.
Python dict semantics (duplicate object keys: the later entry wins)
are preserved.  -/

/-- A Python unicode string as json handles it: a list of code points,
in which lone surrogates (from \uXXXX escapes) may occur. -/
abbrev PyUStr := List Nat

/-- An IEEE-754 binary64 value as Python json produces it: NaN, a
signed infinity, or a signed finite value mant * 2^exp with
0 ≤ mant < 2^53 and -1074 ≤ exp ≤ 971 (mant = 0 encodes a signed
zero with exp = -1074; mant < 2^52 only when exp = -1074). -/
inductive PyFloat where
  | finite (neg : Bool) (mant : Nat) (exp : Int)
  | inf (neg : Bool)
  | nan
deriving DecidableEq, Repr

/-- Number of binary digits of n, with explicit fuel (callers pass a
bound that exceeds the bit length of every number they supply). -/
def bitLenAux : Nat → Nat → Nat
  | 0, _ => 0
  | f + 1, n => if n = 0 then 0 else bitLenAux f (n / 2) + 1

/-- floor(a/b) rounded to nearest with ties to even (the IEEE-754 and
decimal-conversion rounding rule). -/
def roundHalfEvenNat (a b : Nat) : Nat :=
  let q := a / b
  let r := a % b
  if b < 2 * r then q + 1
  else if 2 * r < b then q
  else if q % 2 = 0 then q else q + 1

/-- Is 2^t ≤ a/b (a, b ≥ 1), by exact integer comparison. -/
def ratPow2LE (t : Int) (a b : Nat) : Bool :=
  if 0 ≤ t then b * 2 ^ t.toNat ≤ a else b ≤ a * 2 ^ (-t).toNat

/-- floor(log2 (a/b)) for a, b ≥ 1: the bit-length estimate is off by
at most one and is fixed by one exact comparison. -/
def ratLog2 (fuel a b : Nat) : Int :=
  let t : Int := (bitLenAux fuel a : Int) - (bitLenAux fuel b : Int)
  if ratPow2LE t a b then t else t - 1

/-- Python float(s) on a decimal literal D * 10^e10 with the given
sign, where ddLen bounds the number of digits of D: the nearest
binary64 (ties to even), +-inf on overflow, a signed zero on
underflow.  Values with e10 ≥ 310 exceed the binary64 range and
values below 10^(ddLen + e10) ≤ 10^-324 are under half the smallest
subnormal, so the remaining exponents are small enough that
8 * ddLen + 3000 bits of fuel cover every intermediate number. -/
def decimalToFloat (neg : Bool) (D : Nat) (e10 : Int) (ddLen : Nat) : PyFloat :=
  if D = 0 then PyFloat.finite neg 0 (-1074)
  else if 310 ≤ e10 then PyFloat.inf neg
  else if (ddLen : Int) + e10 ≤ -324 then PyFloat.finite neg 0 (-1074)
  else
    let fuel := 8 * ddLen + 3000
    let a0 := if 0 ≤ e10 then D * 10 ^ e10.toNat else D
    let b0 := if 0 ≤ e10 then 1 else 10 ^ (-e10).toNat
    let l := ratLog2 fuel a0 b0
    let q : Int := max (l - 52) (-1074)
    let a := if 0 ≤ q then a0 else a0 * 2 ^ (-q).toNat
    let b := if 0 ≤ q then b0 * 2 ^ q.toNat else b0
    let m0 := roundHalfEvenNat a b
    let m := if m0 = 2 ^ 53 then 2 ^ 52 else m0
    let q2 := if m0 = 2 ^ 53 then q + 1 else q
    if m = 0 then PyFloat.finite neg 0 (-1074)
    else if 971 < q2 then PyFloat.inf neg
    else PyFloat.finite neg m q2

/-- The exact rational m * 2^e as a numerator/denominator pair. -/
def ratOfFloat (m : Nat) (e : Int) : Nat × Nat :=
  if 0 ≤ e then (m * 2 ^ e.toNat, 1) else (m, 2 ^ (-e).toNat)

/-- Is 10^t ≤ num/den, by exact integer comparison. -/
def ratPow10LE (t : Int) (num den : Nat) : Bool :=
  if 0 ≤ t then den * 10 ^ t.toNat ≤ num else den ≤ num * 10 ^ (-t).toNat

/-- Decrease t until 10^t ≤ num/den. -/
def adjLogDown : Nat → Int → Nat → Nat → Int
  | 0, t, _, _ => t
  | f + 1, t, num, den =>
    if ratPow10LE t num den then t else adjLogDown f (t - 1) num den

/-- Increase t while 10^(t+1) ≤ num/den. -/
def adjLogUp : Nat → Int → Nat → Nat → Int
  | 0, t, _, _ => t
  | f + 1, t, num, den =>
    if ratPow10LE (t + 1) num den then adjLogUp f (t + 1) num den else t

/-- floor(log10 (m * 2^e)) for m ≥ 1: a linear estimate from the bit
length, corrected by exact comparisons (the estimate is off by at most
two, far within the fuel). -/
def floorLog10 (m : Nat) (e : Int) : Int :=
  let nd := ratOfFloat m e
  let l := ratLog2 3000 nd.1 nd.2
  let t0 : Int := (l * 30103).fdiv 100000
  adjLogUp 40 (adjLogDown 40 t0 nd.1 nd.2) nd.1 nd.2

/-- The correctly rounded (ties to even) p significant decimal digits
of m * 2^e, where t = floor(log10): a pair (d, t2) with d of exactly p
digits and the value approximated by d * 10^(t2 - p + 1). -/
def sigDigits (m : Nat) (e : Int) (t : Int) (p : Nat) : Nat × Int :=
  let k : Int := t - p + 1
  let nd := ratOfFloat m e
  let a := if 0 ≤ k then nd.1 else nd.1 * 10 ^ (-k).toNat
  let b := if 0 ≤ k then nd.2 * 10 ^ k.toNat else nd.2
  let d := roundHalfEvenNat a b
  if d = 10 ^ p then (10 ^ (p - 1), t + 1) else (d, t)

/-- The shortest correctly-rounded digit string that parses back to
exactly the double m * 2^e (the contract of Python's float repr):
(digits, decimal exponent, precision).  Seventeen significant digits
always round-trip, so the last precision needs no check. -/
def shortestDigitsAux (m : Nat) (e : Int) (t : Int) : List Nat → Nat × Int × Nat
  | [] =>
    let dt := sigDigits m e t 17
    (dt.1, dt.2, 17)
  | p :: rest =>
    let dt := sigDigits m e t p
    if decimalToFloat false dt.1 (dt.2 - p + 1) p = PyFloat.finite false m e
    then (dt.1, dt.2, p)
    else shortestDigitsAux m e t rest

/-- Shortest round-tripping digits of m * 2^e, trying precisions 1-17. -/
def shortestDigits (m : Nat) (e : Int) (t : Int) : Nat × Int × Nat :=
  shortestDigitsAux m e t [1, 2, 3, 4, 5, 6, 7, 8, 9, 10, 11, 12, 13, 14, 15, 16]

/-- CPython's repr formatting of the digit string d (p digits) for the
value d1.d2...dp * 10^t: fixed notation with a mandatory fractional
part when -4 ≤ t < 16, otherwise scientific notation with a signed,
two-digit-minimum exponent. -/
def formatFloat (neg : Bool) (d : Nat) (p : Nat) (t : Int) : String :=
  let ds := toString d
  let body :=
    if -4 ≤ t ∧ t < 16 then
      if (p : Int) - 1 ≤ t then
        ds ++ String.mk (List.replicate (t - (p - 1)).toNat '0') ++ ".0"
      else if 0 ≤ t then
        String.mk (ds.toList.take (t.toNat + 1)) ++ "." ++
          String.mk (ds.toList.drop (t.toNat + 1))
      else "0." ++ String.mk (List.replicate ((-t).toNat - 1) '0') ++ ds
    else
      let mant :=
        if p = 1 then ds
        else String.mk (ds.toList.take 1) ++ "." ++ String.mk (ds.toList.drop 1)
      let esign := if t < 0 then "-" else "+"
      let eabs := toString (if t < 0 then (-t).toNat else t.toNat)
      let epad := if eabs.toList.length < 2 then "0" ++ eabs else eabs
      mant ++ "e" ++ esign ++ epad
  if neg then "-" ++ body else body

/-- repr of a finite nonzero double (m ≥ 1), as json.dumps emits it:
the shortest decimal form that parses back to the same double. -/
def reprFloat (neg : Bool) (m : Nat) (e : Int) : String :=
  let t := floorLog10 m e
  let dtp := shortestDigits m e t
  formatFloat neg dtp.1 dtp.2.2 dtp.2.1

/-- A parsed JSON document (Python object built by json.loads). -/
inductive Json where
  | null
  | jbool (b : Bool)
  | jint (n : Int)
  | jfloat (f : PyFloat)
  | jstr (s : PyUStr)
  | jarr (xs : List Json)
  | jobj (fields : List (PyUStr × Json))

/-- JSON whitespace accepted by the parser. -/
def isJsonWs (c : Char) : Bool := c = ' ' ∨ c = '\t' ∨ c = '\n' ∨ c = '\r'

/-- Skip leading JSON whitespace. -/
def skipWs : List Char → List Char
  | [] => []
  | c :: t => if isJsonWs c then skipWs t else c :: t

/-- The value of one hexadecimal digit. -/
def hexVal (c : Char) : Option Nat :=
  if '0' ≤ c ∧ c ≤ '9' then some (c.toNat - 48)
  else if 'a' ≤ c ∧ c ≤ 'f' then some (c.toNat - 87)
  else if 'A' ≤ c ∧ c ≤ 'F' then some (c.toNat - 55)
  else Option.none

/-- Combine each adjacent high+low surrogate pair of code units into
one supplementary code point, as Python's json scanner does for
adjacent \uXXXX escapes, keeping unpaired surrogates as lone units.
Only \uXXXX escapes can put surrogate units into the list, so the
post-pass pairing is equivalent to the scanner's inline pairing. -/
def combineSurrogates : List Nat → List Nat
  | [] => []
  | [h] => [h]
  | h :: l :: rest =>
    if (0xD800 ≤ h ∧ h ≤ 0xDBFF) ∧ (0xDC00 ≤ l ∧ l ≤ 0xDFFF) then
      (0x10000 + (h - 0xD800) * 0x400 + (l - 0xDC00)) :: combineSurrogates rest
    else h :: combineSurrogates (l :: rest)

/-- Parse the remainder of a JSON string literal (after the opening
quote) into code points, as Python's json scanner does: the short
escapes, \uXXXX escapes (surrogate pairs combined on the closing
quote), and raw control characters rejected (strict mode). -/
def parseStrAux : List Nat → List Char → Option (PyUStr × List Char)
  | _, [] => Option.none
  | acc, c :: rest =>
    if c = '"' then some (combineSurrogates acc.reverse, rest)
    else if c = '\\' then
      match rest with
      | [] => Option.none
      | e :: r2 =>
        if e = '"' then parseStrAux (34 :: acc) r2
        else if e = '\\' then parseStrAux (92 :: acc) r2
        else if e = '/' then parseStrAux (47 :: acc) r2
        else if e = 'b' then parseStrAux (8 :: acc) r2
        else if e = 'f' then parseStrAux (12 :: acc) r2
        else if e = 'n' then parseStrAux (10 :: acc) r2
        else if e = 'r' then parseStrAux (13 :: acc) r2
        else if e = 't' then parseStrAux (9 :: acc) r2
        else if e = 'u' then
          match r2 with
          | a :: b :: c2 :: d :: r3 =>
            match hexVal a, hexVal b, hexVal c2, hexVal d with
            | some ha, some hb, some hc, some hd =>
              parseStrAux ((((ha * 16 + hb) * 16 + hc) * 16 + hd) :: acc) r3
            | _, _, _, _ => Option.none
          | _ => Option.none
        else Option.none
    else if c.toNat < 0x20 then Option.none
    else parseStrAux (c.toNat :: acc) rest

/-- The numeric value of a list of decimal digit characters. -/
def digitsToNat (ds : List Char) : Nat :=
  ds.foldl (fun a c => a * 10 + (c.toNat - 48)) 0

/-- Parse a JSON number exactly as the json module's NUMBER_RE does:
an optional minus, an integer part 0 | [1-9]digits, an optional
fraction (dot plus at least one digit) and an optional exponent
(e/E, optional sign, at least one digit); a partial fraction or
exponent is left unconsumed.  Without fraction and exponent the
literal is a Python int, with either it is a Python float. -/
def parseNum (cs : List Char) : Option (Json × List Char) :=
  let (neg, cs1) : Bool × List Char :=
    match cs with
    | '-' :: t => (true, t)
    | _ => (false, cs)
  match cs1 with
  | [] => Option.none
  | c :: _ =>
    if ¬ c.isDigit then Option.none
    else
      let intDs := if c = '0' then ['0'] else cs1.takeWhile Char.isDigit
      let r1 := cs1.drop intDs.length
      let fracDs : List Char :=
        match r1 with
        | '.' :: r2 => r2.takeWhile Char.isDigit
        | _ => []
      let r2 := if fracDs.isEmpty then r1 else r1.drop (fracDs.length + 1)
      let expPart : Option (Bool × List Char × List Char) :=
        match r2 with
        | e :: r3 =>
          if e = 'e' ∨ e = 'E' then
            match r3 with
            | '+' :: r4 =>
              let eds := r4.takeWhile Char.isDigit
              if eds.isEmpty then Option.none
              else some (false, eds, r4.drop eds.length)
            | '-' :: r4 =>
              let eds := r4.takeWhile Char.isDigit
              if eds.isEmpty then Option.none
              else some (true, eds, r4.drop eds.length)
            | _ =>
              let eds := r3.takeWhile Char.isDigit
              if eds.isEmpty then Option.none
              else some (false, eds, r3.drop eds.length)
          else Option.none
        | [] => Option.none
      match expPart with
      | some (esgn, eds, r4) =>
        let e10 : Int :=
          (if esgn then -(digitsToNat eds : Int) else (digitsToNat eds : Int)) -
            fracDs.length
        some (Json.jfloat (decimalToFloat neg (digitsToNat (intDs ++ fracDs)) e10
          (intDs.length + fracDs.length)), r4)
      | Option.none =>
        if fracDs.isEmpty then
          some (Json.jint (if neg then -(digitsToNat intDs : Int)
            else (digitsToNat intDs : Int)), r1)
        else
          some (Json.jfloat (decimalToFloat neg (digitsToNat (intDs ++ fracDs))
            (-(fracDs.length : Int)) (intDs.length + fracDs.length)), r2)

/-- Collapse duplicate object keys the way the Python dict built by
json.loads does: the later entry wins. -/
def dedupFields (fs : List (PyUStr × Json)) : List (PyUStr × Json) :=
  fs.foldl (fun acc kv => dictSet acc kv.1 kv.2) []

mutual

/-- Recursive-descent JSON value parser (fuel-indexed; the fuel used by
loads is large enough for any input).  Besides the JSON grammar it
accepts the NaN / Infinity / -Infinity constants, as json.loads does
by default. -/
def parseVal : Nat → List Char → Option (Json × List Char)
  | 0, _ => Option.none
  | Nat.succ f, cs =>
    match skipWs cs with
    | [] => Option.none
    | 'n' :: 'u' :: 'l' :: 'l' :: r => some (Json.null, r)
    | 't' :: 'r' :: 'u' :: 'e' :: r => some (Json.jbool true, r)
    | 'f' :: 'a' :: 'l' :: 's' :: 'e' :: r => some (Json.jbool false, r)
    | 'N' :: 'a' :: 'N' :: r => some (Json.jfloat PyFloat.nan, r)
    | 'I' :: 'n' :: 'f' :: 'i' :: 'n' :: 'i' :: 't' :: 'y' :: r =>
      some (Json.jfloat (PyFloat.inf false), r)
    | '-' :: 'I' :: 'n' :: 'f' :: 'i' :: 'n' :: 'i' :: 't' :: 'y' :: r =>
      some (Json.jfloat (PyFloat.inf true), r)
    | '"' :: r => (parseStrAux [] r).map (fun p => (Json.jstr p.1, p.2))
    | '[' :: r =>
      match skipWs r with
      | ']' :: r2 => some (Json.jarr [], r2)
      | r1 => (parseArrItems f r1).map (fun p => (Json.jarr p.1, p.2))
    | '\x7b' :: r =>
      match skipWs r with
      | '\x7d' :: r2 => some (Json.jobj [], r2)
      | r1 => (parseObjItems f r1).map (fun p => (Json.jobj (dedupFields p.1), p.2))
    | cs1 => parseNum cs1

/-- Parse the comma-separated items of a non-empty JSON array, up to and
including the closing bracket. -/
def parseArrItems : Nat → List Char → Option (List Json × List Char)
  | 0, _ => Option.none
  | Nat.succ f, cs =>
    match parseVal f cs with
    | Option.none => Option.none
    | some (v, r) =>
      match skipWs r with
      | ',' :: r2 => (parseArrItems f r2).map (fun p => (v :: p.1, p.2))
      | ']' :: r2 => some ([v], r2)
      | _ => Option.none

/-- Parse the comma-separated members of a non-empty JSON object, up to
and including the closing brace. -/
def parseObjItems : Nat → List Char → Option (List (PyUStr × Json) × List Char)
  | 0, _ => Option.none
  | Nat.succ f, cs =>
    match skipWs cs with
    | '"' :: r =>
      match parseStrAux [] r with
      | Option.none => Option.none
      | some (key, r1) =>
        match skipWs r1 with
        | ':' :: r2 =>
          match parseVal f r2 with
          | Option.none => Option.none
          | some (v, r3) =>
            match skipWs r3 with
            | ',' :: r4 => (parseObjItems f r4).map (fun p => ((key, v) :: p.1, p.2))
            | '\x7d' :: r4 => some ([(key, v)], r4)
            | _ => Option.none
        | _ => Option.none
    | _ => Option.none

end

/-- json.loads: parse one JSON document with nothing but whitespace
after it; any parse failure corresponds to a raised ValueError. -/
def loads (s : String) : Option Json :=
  match parseVal (2 * s.toList.length + 2) s.toList with
  | some (j, rest) => if skipWs rest = [] then some j else Option.none
  | Option.none => Option.none

/-- Lexicographic code-point comparison, the order Python string
comparison uses. -/
def natsLt : List Nat → List Nat → Bool
  | [], [] => false
  | [], _ :: _ => true
  | _ :: _, [] => false
  | a :: as, b :: bs =>
    if a < b then true
    else if b < a then false
    else natsLt as bs

/-- Insert a field into a key-sorted field list (ascending code-point
order of keys, as Python sorted does on the unique dict keys). -/
def insertField (kv : PyUStr × Json) : List (PyUStr × Json) → List (PyUStr × Json)
  | [] => [kv]
  | h :: t => if natsLt h.1 kv.1 then h :: insertField kv t else kv :: h :: t

/-- Sort the fields of an object by key (sort_keys=True). -/
def sortFields (l : List (PyUStr × Json)) : List (PyUStr × Json) :=
  l.foldr insertField []

mutual

/-- Sort every object of a document by key.  json.dumps with
sort_keys=True emits each object in sorted key order; pre-sorting the
whole document and then dumping without sorting is equivalent. -/
def sortJson : Json → Json
  | Json.null => Json.null
  | Json.jbool b => Json.jbool b
  | Json.jint n => Json.jint n
  | Json.jfloat f => Json.jfloat f
  | Json.jstr s => Json.jstr s
  | Json.jarr xs => Json.jarr (sortJsonList xs)
  | Json.jobj fs => Json.jobj (sortFields (sortJsonFields fs))

/-- sortJson over the items of an array. -/
def sortJsonList : List Json → List Json
  | [] => []
  | j :: t => sortJson j :: sortJsonList t

/-- sortJson over the values of an object. -/
def sortJsonFields : List (PyUStr × Json) → List (PyUStr × Json)
  | [] => []
  | (k, v) :: t => (k, sortJson v) :: sortJsonFields t

end

/-- One lowercase hexadecimal digit. -/
def hexDigit (n : Nat) : Char :=
  if n < 10 then Char.ofNat (48 + n) else Char.ofNat (87 + n)

/-- Four lowercase hexadecimal digits, as in the \u escapes emitted by
json.dumps with the default ensure_ascii=True. -/
def hex4 (n : Nat) : String :=
  String.mk [hexDigit (n / 4096 % 16), hexDigit (n / 256 % 16),
             hexDigit (n / 16 % 16), hexDigit (n % 16)]

/-- The escaping of one code point by json.dumps (ensure_ascii=True):
printable ASCII other than quote and backslash is kept, the common
control characters use their short escapes, everything else becomes
\uXXXX (a surrogate pair beyond the basic plane, a lone \uXXXX for a
lone surrogate code unit). -/
def escCode (n : Nat) : String :=
  if n = 34 then "\\\""
  else if n = 92 then "\\\\"
  else if n = 10 then "\\n"
  else if n = 13 then "\\r"
  else if n = 9 then "\\t"
  else if n = 8 then "\\b"
  else if n = 12 then "\\f"
  else if 0x20 ≤ n ∧ n ≤ 0x7E then String.singleton (Char.ofNat n)
  else if n ≤ 0xFFFF then "\\u" ++ hex4 n
  else
    "\\u" ++ hex4 (0xD800 + (n - 0x10000) / 0x400) ++
    "\\u" ++ hex4 (0xDC00 + (n - 0x10000) % 0x400)

/-- The JSON string literal for s as emitted by json.dumps. -/
def encJsonStr (s : PyUStr) : String :=
  "\"" ++ String.join (s.map escCode) ++ "\""

/-- The indentation in front of an element at a nesting level, with
indent=4. -/
def jsonIndent (level : Nat) : String :=
  String.mk (List.replicate (level * 4) ' ')

mutual

/-- json.dumps(j, indent=4) of a document whose objects are already in
sorted key order; level is the current nesting depth.  A float is
rendered as NaN / Infinity / -Infinity or with repr's shortest
round-tripping decimal form. -/
def dumpsVal : Json → Nat → String
  | Json.null, _ => "null"
  | Json.jbool b, _ => if b then "true" else "false"
  | Json.jint n, _ => toString n
  | Json.jfloat PyFloat.nan, _ => "NaN"
  | Json.jfloat (PyFloat.inf false), _ => "Infinity"
  | Json.jfloat (PyFloat.inf true), _ => "-Infinity"
  | Json.jfloat (PyFloat.finite neg m e), _ =>
    if m = 0 then (if neg then "-0.0" else "0.0") else reprFloat neg m e
  | Json.jstr s, _ => encJsonStr s
  | Json.jarr [], _ => "[]"
  | Json.jarr (x :: xs), level =>
    "[\n" ++ dumpsItems (x :: xs) (level + 1) ++ "\n" ++ jsonIndent level ++ "]"
  | Json.jobj [], _ => "\x7b\x7d"
  | Json.jobj (f :: fs), level =>
    "\x7b\n" ++ dumpsFields (f :: fs) (level + 1) ++ "\n" ++ jsonIndent level ++ "\x7d"

/-- The ",\n"-separated, indented items of an array body. -/
def dumpsItems : List Json → Nat → String
  | [], _ => ""
  | [j], level => jsonIndent level ++ dumpsVal j level
  | j :: j2 :: t, level =>
    jsonIndent level ++ dumpsVal j level ++ ",\n" ++ dumpsItems (j2 :: t) level

/-- The ",\n"-separated, indented "key": value members of an object
body (key separator ": "). -/
def dumpsFields : List (PyUStr × Json) → Nat → String
  | [], _ => ""
  | [(k, v)], level => jsonIndent level ++ encJsonStr k ++ ": " ++ dumpsVal v level
  | (k, v) :: f2 :: t, level =>
    jsonIndent level ++ encJsonStr k ++ ": " ++ dumpsVal v level ++ ",\n" ++
      dumpsFields (f2 :: t) level

end

/-- json.dumps(parsed, indent=4, sort_keys=True). -/
def dumps (j : Json) : String := dumpsVal (sortJson j) 0

/-- pretty_json of consumer.py: re-serialize a JSON-parseable body with
4-space indentation and sorted keys; return any unparseable body
unchanged (the bare except swallows every parse error). -/
def pretty_json (body : String) : String :=
  match loads body with
  | some parsed => dumps parsed
  | Option.none => body

/-- The body printed by consumer_callback: pretty-printed only when the
message's content type is exactly application/json, verbatim
otherwise. -/
def consumerPrintedBody (contentType body : String) : String :=
  if contentType = "application/json" then pretty_json body else body

/-!  Config.__init__ (config.py lines 121-124): self.update(dict(...))
routes every entry of the initial mapping through __setitem__.  -/

/-- dict(*args, **kwargs): build a Python dict from the given pairs
(later duplicates win, insertion order kept). -/
def pyDictOf (pairs : List (String × Value)) : List (String × Value) :=
  pairs.foldl (fun acc kv => dictSet acc kv.1 kv.2) []

/-- The MutableMapping.update loop: self[k] = v for every entry, the
first KeyError aborting the construction. -/
def initFrom (c : Config) : List (String × Value) → Except PyErr Config
  | [] => Except.ok c
  | (k, v) :: rest =>
    match c.setItem k v with
    | Except.ok c2 => initFrom c2 rest
    | Except.error e => Except.error e

/-- Config(mapping): _settings starts empty and every entry of the
mapping is written through the validated __setitem__. -/
def Config.init (pairs : List (String × Value)) : Except PyErr Config :=
  initFrom Config.new (pyDictOf pairs)

/-!  Association-list lemmas (Python dict semantics).  -/

theorem dictGet_dictSet_self {κ α : Type} [DecidableEq κ] (l : List (κ × α)) (k : κ) (v : α) :
    dictGet (dictSet l k v) k = some v := by
  induction l with
  | nil => simp [dictGet, dictSet]
  | cons h t ih =>
    obtain ⟨k', v'⟩ := h
    by_cases hk : k' = k
    · simp [dictGet, dictSet, hk]
    · simp [dictGet, dictSet, hk, ih]

theorem dictGet_dictSet_ne {κ α : Type} [DecidableEq κ] (l : List (κ × α)) (k' k : κ) (v : α)
    (h : k' ≠ k) : dictGet (dictSet l k' v) k = dictGet l k := by
  induction l with
  | nil => simp [dictGet, dictSet, h]
  | cons hd t ih =>
    obtain ⟨k0, v0⟩ := hd
    by_cases hk : k0 = k'
    · subst hk
      simp [dictGet, dictSet, h]
    · simp [dictGet, dictSet, hk, ih]

theorem dictGet_eq_none_of_not_mem {κ α : Type} [DecidableEq κ] (l : List (κ × α)) (k : κ)
    (h : k ∉ l.map Prod.fst) : dictGet l k = Option.none := by
  induction l with
  | nil => simp [dictGet]
  | cons hd t ih =>
    obtain ⟨k0, v0⟩ := hd
    simp only [List.map_cons, List.mem_cons] at h
    push_neg at h
    have hk0 : ¬k0 = k := fun hk => h.1 hk.symm
    simp [dictGet, hk0, ih h.2]

theorem dictGet_dictDel_self {κ α : Type} [DecidableEq κ] (l : List (κ × α)) (k : κ)
    (hnd : (l.map Prod.fst).Nodup) : dictGet (dictDel l k) k = Option.none := by
  induction l with
  | nil => simp [dictGet, dictDel]
  | cons hd t ih =>
    obtain ⟨k0, v0⟩ := hd
    simp only [List.map_cons, List.nodup_cons] at hnd
    by_cases hk : k0 = k
    · subst hk
      simpa [dictDel] using dictGet_eq_none_of_not_mem t k0 hnd.1
    · simp [dictDel, dictGet, hk, ih hnd.2]

/-!  Lemmas about the Config store operations.  -/

/-- Every key of the sorted iteration order is a schema key. -/
theorem sortedKeys_isSome : ∀ k ∈ sortedKeys, (dictGet DEFAULT_CONFIG k).isSome := by
  decide

/-- Reading any schema key of a fresh store yields the schema default. -/
theorem getItem_new (k : String) (d : Value) (hd : dictGet DEFAULT_CONFIG k = some d) :
    Config.new.getItem k = Except.ok d := by
  simp only [Config.getItem, Config.new]
  rw [hd]
  simp [dictGet]

theorem getItem_loadStep_self (c : Config) (k : String) (ov : Option Value)
    (hk : (dictGet DEFAULT_CONFIG k).isSome) :
    (loadStep c k ov).getItem k =
      match ov with
      | some v => Except.ok v
      | Option.none => c.getItem k := by
  obtain ⟨d, hd⟩ := Option.isSome_iff_exists.mp hk
  cases ov with
  | none => simp [loadStep]
  | some v =>
    simp [loadStep, Config.setItem, Config.getItem, hd, dictGet_dictSet_self]

theorem getItem_loadStep_ne (c : Config) (k' k : String) (ov : Option Value)
    (h : k' ≠ k) : (loadStep c k' ov).getItem k = c.getItem k := by
  cases ov with
  | none => simp [loadStep]
  | some v =>
    simp only [loadStep, Config.setItem]
    cases hdef : dictGet DEFAULT_CONFIG k' with
    | none => simp
    | some d => simp [Config.getItem, dictGet_dictSet_ne _ _ _ _ h]

/-- Reading a key after the load_dict fold over any key list: the last
write wins, and a key the source does not define keeps its prior
value. -/
theorem getItem_foldl_loadStep (keys : List String) (c : Config)
    (f : String → Option Value) (k : String)
    (hk : (dictGet DEFAULT_CONFIG k).isSome) :
    (keys.foldl (fun acc key => loadStep acc key (f key)) c).getItem k =
      if k ∈ keys then
        match f k with
        | some v => Except.ok v
        | Option.none => c.getItem k
      else c.getItem k := by
  induction keys generalizing c with
  | nil => simp
  | cons key rest ih =>
    simp only [List.foldl_cons]
    by_cases hkey : key = k
    · subst hkey
      rw [ih (loadStep c key (f key))]
      by_cases hmem : key ∈ rest
      · simp only [hmem, List.mem_cons, true_or, if_true, if_pos (Or.inl rfl)]
        cases hf : f key with
        | some v => rfl
        | none => simp [loadStep]
      · simp only [hmem, if_false, List.mem_cons, or_false, if_pos (Or.inl rfl)]
        simpa using getItem_loadStep_self c key (f key) hk
    · rw [ih (loadStep c key (f key)), getItem_loadStep_ne c key k (f key) hkey]
      by_cases hmem : k ∈ rest
      · simp [hmem, hkey]
      · have hks : ¬k = key := fun h => hkey h.symm
        simp [hmem, hks]

/-- load_dict characterised key-wise: for a schema key that the source
defines, the store afterwards holds the source's leaf value; for a key
it does not define, the prior value is untouched. -/
theorem getItem_loadDict (c : Config) (src : Source) (k : String)
    (hmem : k ∈ sortedKeys) :
    (c.loadDict src).getItem k =
      match srcLookup src k with
      | some v => Except.ok v
      | Option.none => c.getItem k := by
  have hk := sortedKeys_isSome k hmem
  rw [Config.loadDict, getItem_foldl_loadStep sortedKeys c (srcLookup src) k hk,
    if_pos hmem]

/-!  Further helper lemmas for the claims.  -/

theorem dictGet_mem {κ α : Type} [DecidableEq κ] (l : List (κ × α)) (k : κ) (v : α)
    (h : dictGet l k = some v) : (k, v) ∈ l := by
  induction l with
  | nil => simp [dictGet] at h
  | cons hd t ih =>
    obtain ⟨k0, v0⟩ := hd
    by_cases hk : k0 = k
    · subst hk
      simp [dictGet] at h
      simp [h]
    · simp [dictGet, hk] at h
      simp [ih h]

theorem dictGet_foldl_dictSet_isSome (pairs : List (String × Value))
    (acc : List (String × Value)) (k : String)
    (h : (dictGet acc k).isSome ∨ ∃ v, (k, v) ∈ pairs) :
    (dictGet (pairs.foldl (fun a kv => dictSet a kv.1 kv.2) acc) k).isSome := by
  induction pairs generalizing acc with
  | nil =>
    rcases h with h | ⟨v, hv⟩
    · simpa using h
    · simp at hv
  | cons p rest ih =>
    obtain ⟨kp, vp⟩ := p
    simp only [List.foldl_cons]
    apply ih
    by_cases hk : kp = k
    · subst hk
      left
      simp [dictGet_dictSet_self]
    · rcases h with h | ⟨v, hv⟩
      · left
        rwa [dictGet_dictSet_ne _ _ _ _ hk]
      · simp only [List.mem_cons] at hv
        rcases hv with hv | hv
        · exact absurd (congrArg Prod.fst hv).symm hk
        · exact Or.inr ⟨v, hv⟩

/-- A mapping with an entry whose key is outside the schema makes the
update loop of Config.__init__ raise a KeyError. -/
theorem initFrom_error (l : List (String × Value)) (c : Config)
    (h : ∃ p ∈ l, dictGet DEFAULT_CONFIG p.1 = Option.none) :
    ∃ msg, initFrom c l = Except.error (PyErr.keyError msg) := by
  induction l generalizing c with
  | nil => simp at h
  | cons p rest ih =>
    obtain ⟨kp, vp⟩ := p
    cases hdef : dictGet DEFAULT_CONFIG kp with
    | none =>
      refine ⟨"No setting " ++ kp, ?_⟩
      simp only [initFrom, Config.setItem]
      rw [hdef]
    | some d =>
      obtain ⟨q, hq, hqbad⟩ := h
      simp only [List.mem_cons] at hq
      rcases hq with rfl | hq
      · rw [hdef] at hqbad
        exact absurd hqbad (by simp)
      · have := ih ⟨dictSet c.settings kp vp⟩ ⟨q, hq, hqbad⟩
        simpa only [initFrom, Config.setItem, hdef] using this

/-- The load_dict walk finds nothing in the empty dict. -/
theorem srcLookup_nil (key : String) : srcLookup [] key = Option.none := by
  unfold srcLookup
  split <;> simp [dictGet]

/-- Loading the empty dict leaves every store unchanged. -/
theorem loadDict_nil (c : Config) : c.loadDict [] = c := by
  unfold Config.loadDict
  have h : ∀ (keys : List String) (c : Config),
      keys.foldl (fun acc key => loadStep acc key (srcLookup [] key)) c = c := by
    intro keys
    induction keys with
    | nil => intro c; rfl
    | cons key rest ih =>
      intro c
      simp [List.foldl_cons, srcLookup_nil, loadStep, ih]
  exact h sortedKeys c

/-- A source whose read yields the empty dict can be dropped from the
get_config loop without changing the outcome. -/
theorem get_config_from_skip (s : FileSource) (hs : read_config s = Except.ok [])
    (A B : List FileSource) (c : Config) :
    get_config_from c (A ++ s :: B) = get_config_from c (A ++ B) := by
  induction A generalizing c with
  | nil =>
    simp only [List.nil_append, get_config_from, hs, loadDict_nil]
  | cons a rest ih =>
    simp only [List.cons_append, get_config_from]
    cases read_config a with
    | error e => rfl
    | ok src => exact ih (c.loadDict src)

/-!  The claims.  -/

/-- C1: applying ordered nested-mapping sources to a fresh Settings
Store, the later source wins for a key both define; a single source
yields its own value for the keys it defines and the schema default for
every key it does not define. -/
theorem c1_later_source_wins (A B : Source) (k : String) (hk : k ∈ sortedKeys) :
    (∀ va vb, srcLookup A k = some va → srcLookup B k = some vb →
      (resolve [A, B]).getItem k = Except.ok vb) ∧
    (∀ va, srcLookup A k = some va → (resolve [A]).getItem k = Except.ok va) ∧
    (∀ d, srcLookup A k = Option.none → dictGet DEFAULT_CONFIG k = some d →
      (resolve [A]).getItem k = Except.ok d) := by
  refine ⟨?_, ?_, ?_⟩
  · intro va vb hA hB
    show ((Config.new.loadDict A).loadDict B).getItem k = Except.ok vb
    rw [getItem_loadDict _ _ _ hk, hB]
  · intro va hA
    show (Config.new.loadDict A).getItem k = Except.ok va
    rw [getItem_loadDict _ _ _ hk, hA]
  · intro d hA hd
    show (Config.new.loadDict A).getItem k = Except.ok d
    rw [getItem_loadDict _ _ _ hk, hA]
    exact getItem_new k d hd

/-- C1 witness: concrete sources both defining conn.host; the second
wins, a single source keeps its value, and conn.port (undefined in the
source) reads as the schema default 5672. -/
theorem c1_witness :
    ("conn.host" ∈ sortedKeys) ∧
    (resolve [[("conn", [("host", Value.vstr "mq-a")])],
              [("conn", [("host", Value.vstr "mq-b")])]]).getItem "conn.host" =
      Except.ok (Value.vstr "mq-b") ∧
    (resolve [[("conn", [("host", Value.vstr "mq-a")])]]).getItem "conn.host" =
      Except.ok (Value.vstr "mq-a") ∧
    (resolve [[("conn", [("host", Value.vstr "mq-a")])]]).getItem "conn.port" =
      Except.ok (Value.vint 5672) := by
  refine ⟨by decide, ?_, ?_, ?_⟩
  · exact (c1_later_source_wins [("conn", [("host", Value.vstr "mq-a")])]
      [("conn", [("host", Value.vstr "mq-b")])] "conn.host" (by decide)).1
      (Value.vstr "mq-a") (Value.vstr "mq-b") (by rfl) (by rfl)
  · exact (c1_later_source_wins [("conn", [("host", Value.vstr "mq-a")])]
      [] "conn.host" (by decide)).2.1 (Value.vstr "mq-a") (by rfl)
  · exact (c1_later_source_wins [("conn", [("host", Value.vstr "mq-a")])]
      [] "conn.port" (by decide)).2.2 (Value.vint 5672) (by rfl) (by rfl)

/-- C2 counterexample: conn.host is a schema key, yet deleting it on a
fresh store (where it has not been explicitly set) raises
KeyError("conn.host not set") instead of succeeding. -/
theorem c2_counterexample :
    dictGet DEFAULT_CONFIG "conn.host" = some (Value.vstr "localhost") ∧
    Config.new.delItem "conn.host" =
      Except.error (PyErr.keyError "conn.host not set") := ⟨rfl, rfl⟩

/-- C2 amended: deleting an explicitly set schema key succeeds and the
key afterwards reads as the schema default; deleting an unset schema
key raises KeyError("... not set"); the store's length is unchanged by
every successful set or delete. -/
theorem c2_amended (c : Config) (k : String) (d : Value)
    (hd : dictGet DEFAULT_CONFIG k = some d)
    (hnd : (c.settings.map Prod.fst).Nodup) :
    (∀ v, dictGet c.settings k = some v →
      ∃ c2, c.delItem k = Except.ok c2 ∧ c2.getItem k = Except.ok d ∧
        c2.length = c.length) ∧
    (dictGet c.settings k = Option.none →
      c.delItem k = Except.error (PyErr.keyError (k ++ " not set"))) ∧
    (∀ v c2, c.setItem k v = Except.ok c2 → c2.length = c.length) ∧
    (∀ c2, c.delItem k = Except.ok c2 → c2.length = c.length) := by
  refine ⟨?_, ?_, ?_, ?_⟩
  · intro v hv
    refine ⟨⟨dictDel c.settings k⟩, ?_, ?_, rfl⟩
    · simp only [Config.delItem]
      rw [hd, hv]
    · simp only [Config.getItem]
      rw [hd, dictGet_dictDel_self _ _ hnd]
      rfl
  · intro hv
    simp only [Config.delItem]
    rw [hd, hv]
  · intro v c2 _
    rfl
  · intro c2 _
    rfl

/-- C2 witness: deleting the explicitly set conn.host succeeds, the key
then reads as the default "localhost", and the length is unchanged. -/
theorem c2_witness :
    ∃ c2, (Config.mk [("conn.host", Value.vstr "mqhost")]).delItem "conn.host" =
        Except.ok c2 ∧
      c2.getItem "conn.host" = Except.ok (Value.vstr "localhost") ∧
      c2.length = (Config.mk [("conn.host", Value.vstr "mqhost")]).length :=
  (c2_amended (Config.mk [("conn.host", Value.vstr "mqhost")]) "conn.host"
    (Value.vstr "localhost") (by rfl) (by decide)).1 (Value.vstr "mqhost") (by rfl)

/-- C3 counterexample: a file that fails to YAML-parse is not treated
as empty: yaml.load's error escapes read_config, so get_config raises
instead of returning the store obtained with the source absent. -/
theorem c3_counterexample :
    get_config [FileSource.invalid
        "while scanning: found character that cannot start any token"] =
      Except.error (PyErr.yamlError
        "while scanning: found character that cannot start any token") ∧
    get_config [] = Except.ok Config.new := ⟨rfl, rfl⟩

/-- C3 amended: a missing file and a file whose root is not a mapping
yield an empty override set and leave the resulting store exactly as if
the source were absent; a file that fails to parse raises the parse
error to the caller. -/
theorem c3_amended :
    (∀ c : Config, c.loadDict [] = c) ∧
    (∀ A B, get_config (A ++ FileSource.missing :: B) = get_config (A ++ B)) ∧
    (∀ A B, get_config (A ++ FileSource.nonMapping :: B) = get_config (A ++ B)) ∧
    (∀ m, read_config (FileSource.invalid m) = Except.error (PyErr.yamlError m)) := by
  refine ⟨loadDict_nil, ?_, ?_, fun m => rfl⟩
  · intro A B
    exact get_config_from_skip FileSource.missing rfl A B Config.new
  · intro A B
    exact get_config_from_skip FileSource.nonMapping rfl A B Config.new

/-- C4 counterexample: a password file whose first line is blank (with
"topsecret" on the second line): the code takes only the first line, so
no password comes from the file and the interactive prompt IS invoked;
the resolved password is the prompt's answer, not "topsecret". -/
theorem c4_counterexample :
    get_creds ⟨some "alice", Option.none, some "pwfile"⟩
        (fun _ => FileRead.ok ["   ", "topsecret"]) (Except.ok "prompted") =
      Except.ok (some (some "alice", some "prompted")) ∧
    ¬ get_creds ⟨some "alice", Option.none, some "pwfile"⟩
        (fun _ => FileRead.ok ["   ", "topsecret"]) (Except.ok "prompted") =
      Except.ok (some (some "alice", some "topsecret")) := by
  have h1 : get_creds ⟨some "alice", Option.none, some "pwfile"⟩
      (fun _ => FileRead.ok ["   ", "topsecret"]) (Except.ok "prompted") =
      Except.ok (some (some "alice", some "prompted")) := by rfl
  refine ⟨h1, ?_⟩
  intro h
  rw [h1] at h
  simp at h

/-- C4 amended: with a password file given, an unreadable file is fatal
(SystemExit); a first line that strips to a non-blank string becomes
the password and the prompt is never consulted; without a usable
file-password, a truthy username with no truthy password invokes the
prompt (whose failure is fatal); credentials are absent when neither
username nor password is truthy, and returned credentials always have a
truthy username or password. -/
theorem c4_amended (args : Args) (rf : String → FileRead) (gp : Except String String) :
    (∀ pf e, args.password_file = some pf → pf ≠ "" → rf pf = FileRead.err e →
      get_creds args rf gp = Except.error ("Unable to open password file: " ++ e)) ∧
    (∀ pf lines, args.password_file = some pf → pf ≠ "" → rf pf = FileRead.ok lines →
      stripStr (readline lines) ≠ "" →
      get_creds args rf gp =
        Except.ok (some (args.username, some (stripStr (readline lines))))) ∧
    (∀ pw, truthy args.password_file = false → truthy args.username = true →
      truthy args.password = false → gp = Except.ok pw →
      get_creds args rf gp = Except.ok (some (args.username, some pw))) ∧
    (∀ e, truthy args.password_file = false → truthy args.username = true →
      truthy args.password = false → gp = Except.error e →
      get_creds args rf gp = Except.error ("Prompt terminated: " ++ e)) ∧
    (truthy args.password_file = false → truthy args.username = false →
      truthy args.password = false → get_creds args rf gp = Except.ok Option.none) ∧
    (∀ u p, get_creds args rf gp = Except.ok (some (u, p)) →
      (truthy u || truthy p) = true) := by
  refine ⟨?_, ?_, ?_, ?_, ?_, ?_⟩
  · intro pf e hpf hne hrf
    simp [get_creds, resolvePwFile, hpf, truthy, hne, hrf]
  · intro pf lines hpf hne hok hnb
    simp [get_creds, resolvePwFile, hpf, truthy, hne, hok, hnb, resolvePrompt, finishCreds]
  · intro pw hnopf hu hp hgp
    simp [get_creds, resolvePwFile, hnopf, resolvePrompt, hu, hp, hgp, finishCreds]
  · intro e hnopf hu hp hgp
    simp [get_creds, resolvePwFile, hnopf, resolvePrompt, hu, hp, hgp]
  · intro hnopf hu hp
    simp [get_creds, resolvePwFile, hnopf, resolvePrompt, hu, hp, finishCreds]
  · intro u p h
    unfold get_creds at h
    cases hpw : resolvePwFile args rf with
    | error e => rw [hpw] at h; simp at h
    | ok a1 =>
      rw [hpw] at h
      dsimp only at h
      cases hpr : resolvePrompt a1 gp with
      | error e => rw [hpr] at h; simp at h
      | ok a2 =>
        rw [hpr] at h
        dsimp only at h
        simp only [finishCreds] at h
        by_cases hc : (truthy a2.username || truthy a2.password) = true
        · rw [if_pos hc] at h
          simp only [Except.ok.injEq, Option.some.injEq, Prod.mk.injEq] at h
          obtain ⟨hu, hp2⟩ := h
          subst hu
          subst hp2
          exact hc
        · rw [if_neg hc] at h
          simp at h

/-- C4 witness: the spec scenario: a password file containing
"topsecret" on its first line resolves to that password without
consulting the prompt. -/
theorem c4_witness :
    get_creds ⟨Option.none, Option.none, some "pwfile"⟩
        (fun _ => FileRead.ok ["topsecret", "x"]) (Except.ok "unused") =
      Except.ok (some (Option.none, some "topsecret")) := by
  have h := (c4_amended ⟨Option.none, Option.none, some "pwfile"⟩
      (fun _ => FileRead.ok ["topsecret", "x"]) (Except.ok "unused")).2.1
      "pwfile" ["topsecret", "x"] rfl (by decide) rfl (by decide)
  simpa using h

/-- C5: loading the nested mapping dumped from any store into a fresh
store reproduces the stored value of every schema key. -/
theorem c5_roundtrip (s : Config) (k : String) (hk : k ∈ sortedKeys) :
    (Config.new.loadDict s.dumpDict).getItem k = s.getItem k := by
  rw [getItem_loadDict _ _ _ hk]
  simp only [sortedKeys, List.mem_cons, List.not_mem_nil, or_false] at hk
  rcases hk with rfl | rfl | rfl | rfl | rfl | rfl | rfl | rfl | rfl <;>
    simp [Config.dumpDict, dumpStep, srcLookup, splitDot, splitDotAux, Config.getItem,
      dictGet, dictSet, DEFAULT_CONFIG, sortedKeys, List.foldl]

/-- C5 witness: the round trip at a concrete store and key. -/
theorem c5_witness :
    ("conn.port" ∈ sortedKeys) ∧
    (Config.new.loadDict (Config.mk [("conn.port", Value.vint 15672)]).dumpDict).getItem
        "conn.port" =
      (Config.mk [("conn.port", Value.vint 15672)]).getItem "conn.port" :=
  ⟨by decide, c5_roundtrip _ _ (by decide)⟩

/-- C6: get, set and delete on a key outside the closed schema all fail
with KeyError("No setting ..."); set and delete return only the error,
so no store contents change. -/
theorem c6_unknown_key (c : Config) (k : String) (v : Value)
    (hk : dictGet DEFAULT_CONFIG k = Option.none) :
    c.getItem k = Except.error (PyErr.keyError ("No setting " ++ k)) ∧
    c.setItem k v = Except.error (PyErr.keyError ("No setting " ++ k)) ∧
    c.delItem k = Except.error (PyErr.keyError ("No setting " ++ k)) := by
  refine ⟨?_, ?_, ?_⟩ <;>
    simp only [Config.getItem, Config.setItem, Config.delItem] <;> rw [hk]

/-- C6 witness: the spec's example key "bogus.key". -/
theorem c6_witness :
    Config.new.getItem "bogus.key" =
      Except.error (PyErr.keyError "No setting bogus.key") ∧
    Config.new.setItem "bogus.key" (Value.vint 1) =
      Except.error (PyErr.keyError "No setting bogus.key") ∧
    Config.new.delItem "bogus.key" =
      Except.error (PyErr.keyError "No setting bogus.key") :=
  c6_unknown_key Config.new "bogus.key" (Value.vint 1) (by rfl)

/-- C7 counterexample: storing a string that cannot convert to int into
the int-typed key conn.port succeeds and keeps the raw string:
Config.__setitem__ neither coerces nor raises. -/
theorem c7_counterexample :
    Config.new.setItem "conn.port" (Value.vstr "not-a-number") =
      Except.ok (Config.mk [("conn.port", Value.vstr "not-a-number")]) ∧
    (Config.mk [("conn.port", Value.vstr "not-a-number")]).getItem "conn.port" =
      Except.ok (Value.vstr "not-a-number") := ⟨rfl, rfl⟩

/-- C7 amended: the live store (Config) stores every raw value
unchanged for schema keys and never raises a type error; only the
unused IniConfig.__setitem__ coerces through the declared type,
raising ValueError for an int key given a non-numeric string and
TypeError for None, while bool coercion silently accepts anything by
truthiness. -/
theorem c7_amended :
    (∀ (c : Config) (k : String) (v d : Value), dictGet DEFAULT_CONFIG k = some d →
      ∃ c2, c.setItem k v = Except.ok c2 ∧ c2.getItem k = Except.ok v) ∧
    (iniSetItemValue "conn.port" (Value.vstr "x") =
      Except.error (PyErr.valueError "invalid literal for int() with base 10: x")) ∧
    (iniSetItemValue "conn.port" (Value.vstr " 5672 ") = Except.ok (Value.vint 5672)) ∧
    (iniSetItemValue "conn.port" Value.vnone =
      Except.error (PyErr.typeError
        "int() argument must be a string or a number, not NoneType")) ∧
    (∀ v, iniSetItemValue "ssl.enable" v = Except.ok (Value.vbool (pyBoolCoerce v))) := by
  refine ⟨?_, rfl, rfl, rfl, fun v => rfl⟩
  intro c k v d hd
  refine ⟨⟨dictSet c.settings k v⟩, ?_, ?_⟩
  · simp only [Config.setItem]
    rw [hd]
  · simp only [Config.getItem]
    rw [hd, dictGet_dictSet_self]
    rfl

/-- C7 witness: Config accepts and returns the raw non-numeric string
for the int-typed key conn.port. -/
theorem c7_witness :
    ∃ c2, Config.new.setItem "conn.port" (Value.vstr "not-a-number") = Except.ok c2 ∧
      c2.getItem "conn.port" = Except.ok (Value.vstr "not-a-number") :=
  (c7_amended).1 Config.new "conn.port" (Value.vstr "not-a-number")
    (Value.vint 5672) (by rfl)

/-- C8 counterexample: when basic_publish reports failure, main merely
logs "Unable to publish message" and returns, so the process exits 0,
not non-zero. -/
theorem c8_counterexample :
    publisherFinish false = ("Unable to publish message", 0) := rfl

/-- C8 amended: publisher.main exits 0 regardless of the publish result
(failure is only logged); the confirm_callback defined in the file (but
never registered, confirm_delivery being commented out) would exit 0 on
Basic.Ack and 1 on Basic.Nack and not exit on Confirm.SelectOk. -/
theorem c8_amended :
    (∀ r, (publisherFinish r).2 = 0) ∧
    (∀ t, confirm_callback (AmqpMethod.ack t) = some 0) ∧
    (∀ t, confirm_callback (AmqpMethod.nack t) = some 1) ∧
    confirm_callback AmqpMethod.selectOk = Option.none := by
  refine ⟨?_, fun t => rfl, fun t => rfl, rfl⟩
  intro r
  cases r <;> rfl

/-- C10: pretty_json returns an unparseable body unchanged and re-
serializes a parseable one with indent 4 and sorted keys; the consumer
prints bodies verbatim for any content type other than
application/json; plus concrete evaluations of the pipeline, covering
integers, floats (re-serialized in shortest repr form, for example
1.50 as 1.5) and the NaN extension. -/
theorem c10_pretty_printer :
    (∀ body, loads body = Option.none → pretty_json body = body) ∧
    (∀ body j, loads body = some j → pretty_json body = dumps j) ∧
    (∀ ct body, ct ≠ "application/json" → consumerPrintedBody ct body = body) ∧
    (consumerPrintedBody "application/json" "\x7b\"b\": 1, \"a\": [true, null]\x7d" =
      "\x7b\n    \"a\": [\n        true,\n        null\n    ],\n    \"b\": 1\n\x7d") ∧
    (pretty_json "not valid json" = "not valid json") ∧
    (pretty_json "[1.50, 2]" = "[\n    1.5,\n    2\n]") ∧
    (pretty_json "\x7b\"a\": NaN, \"b\": 0.1\x7d" =
      "\x7b\n    \"a\": NaN,\n    \"b\": 0.1\n\x7d") := by
  refine ⟨?_, ?_, ?_, by rfl, by rfl, ?fltarr, ?fltobj⟩
  case fltarr =>
    have h1 : loads "[1.50, 2]" =
        some (Json.jarr [Json.jfloat (PyFloat.finite false 6755399441055744 (-52)),
          Json.jint 2]) := by rfl
    unfold pretty_json
    rw [h1]
    rfl
  case fltobj =>
    have h1 : loads "\x7b\"a\": NaN, \"b\": 0.1\x7d" =
        some (Json.jobj [([97], Json.jfloat PyFloat.nan),
          ([98], Json.jfloat (PyFloat.finite false 7205759403792794 (-56)))]) := by rfl
    unfold pretty_json
    rw [h1]
    rfl
  · intro body h
    unfold pretty_json
    rw [h]
  · intro body j h
    unfold pretty_json
    rw [h]
  · intro ct body h
    unfold consumerPrintedBody
    rw [if_neg h]

/-- C10 witness: a non-JSON content type passes the body through
verbatim, and a parseable body is re-serialized with 4-space indent. -/
theorem c10_witness :
    consumerPrintedBody "text/plain" "\x7b\"a\": 1\x7d" = "\x7b\"a\": 1\x7d" ∧
    pretty_json "[1, 2]" = "[\n    1,\n    2\n]" := by
  constructor
  · exact (c10_pretty_printer).2.2.1 "text/plain" "\x7b\"a\": 1\x7d" (by decide)
  · have h := (c10_pretty_printer).2.1 "[1, 2]"
      (Json.jarr [Json.jint 1, Json.jint 2]) (by rfl)
    rw [h]
    rfl

/-- C9: constructing a Settings Store from a mapping containing any key
outside the closed schema raises a KeyError through the validated
__setitem__ the update loop uses. -/
theorem c9_init_validates (pairs : List (String × Value))
    (h : ∃ p ∈ pairs, dictGet DEFAULT_CONFIG p.1 = Option.none) :
    ∃ msg, Config.init pairs = Except.error (PyErr.keyError msg) := by
  obtain ⟨⟨k, v⟩, hmem, hbad⟩ := h
  have hsome : (dictGet (pyDictOf pairs) k).isSome :=
    dictGet_foldl_dictSet_isSome pairs [] k (Or.inr ⟨v, hmem⟩)
  obtain ⟨v2, hv2⟩ := Option.isSome_iff_exists.mp hsome
  exact initFrom_error (pyDictOf pairs) Config.new ⟨(k, v2), dictGet_mem _ _ _ hv2, hbad⟩

/-- C9 witness: an initial mapping holding the unknown key bogus.key is
rejected with a KeyError. -/
theorem c9_witness :
    ∃ msg, Config.init [("conn.host", Value.vstr "h"), ("bogus.key", Value.vint 1)] =
      Except.error (PyErr.keyError msg) :=
  c9_init_validates [("conn.host", Value.vstr "h"), ("bogus.key", Value.vint 1)]
    ⟨("bogus.key", Value.vint 1), by decide, by rfl⟩
